import Mathlib

/-!
Verification of the PR-review pipeline scripts (`llm.py`,
`pr_review_agent_final.py`, `pr_summary_agent.py`).

The scripts read a diff file and a Semgrep JSON file, summarize the
findings into a metadata record, build an LLM prompt, call the LLM and
report the result.  We embed the decoded-JSON data model, the Python
string and dict operations the scripts use, and each script's top-level
control flow as a function from its inputs (environment variables,
argv, filesystem contents, the JSON parser/serializer and the LLM and
GitHub responses) to an exit code plus an ordered trace of observable
events.
-/

/-- A decoded JSON value (the result of Python's `json.load`). -/
inductive JsonVal where
  | null : JsonVal
  | bool (b : Bool) : JsonVal
  | num (n : Int) : JsonVal
  | str (s : String) : JsonVal
  | arr (xs : List JsonVal) : JsonVal
  | obj (fields : List (String × JsonVal)) : JsonVal

/-- Lookup in an association list (a decoded JSON object's fields). -/
def assocFind (fields : List (String × JsonVal)) (k : String) : Option JsonVal :=
  match fields with
  | [] => none
  | (k2, v) :: rest => if k2 = k then some v else assocFind rest k

/-- Python `d.get(k, default)`: raises `AttributeError` when the receiver
is not a dict, otherwise returns the value or the default. -/
def pyGetD (v : JsonVal) (k : String) (d : JsonVal) : Except String JsonVal :=
  match v with
  | JsonVal.obj fields =>
    match assocFind fields k with
    | some x => Except.ok x
    | none => Except.ok d
  | _ => Except.error "AttributeError"

/-- Python `d.get(k)` (default `None`). -/
def pyGetN (v : JsonVal) (k : String) : Except String JsonVal :=
  pyGetD v k JsonVal.null

/-- Lookup of a key in a decoded JSON value: `some` only when the value
is an object that has the key. -/
def pyDictLookup (v : JsonVal) (k : String) : Option JsonVal :=
  match v with
  | JsonVal.obj fields => assocFind fields k
  | _ => none

/-- Python `len(x)`: defined for lists, strings and dicts, raises
`TypeError` on numbers, booleans and `None`. -/
def pyLenOf (v : JsonVal) : Except String Nat :=
  match v with
  | JsonVal.arr xs => Except.ok xs.length
  | JsonVal.str s => Except.ok s.data.length
  | JsonVal.obj fields => Except.ok fields.length
  | _ => Except.error "TypeError"

/-- The whitespace characters stripped by Python's `str.strip()`. -/
def isPySpace (c : Char) : Bool :=
  c = ' ' || c = '\t' || c = '\n' || c = '\x0d' || c = '\x0b' || c = '\x0c'

/-- Python `s.strip()`. -/
def pyStrip (s : String) : String :=
  String.mk (((s.data.dropWhile isPySpace).reverse.dropWhile isPySpace).reverse)

/-- Python `len(s)` on a string (number of code points). -/
def pyLen (s : String) : Nat := s.data.length

/-- Python `s[:n]`. -/
def pyTake (s : String) (n : Nat) : String := String.mk (s.data.take n)

/-- Python truthiness of an optional string (`None` and `""` are falsy). -/
def pyTruthy (v : Option String) : Bool :=
  match v with
  | none => false
  | some s => !s.isEmpty

/-- Digits-only parse used by `pyIntOfString`. -/
def digitsVal (cs : List Char) : Option Nat :=
  match cs with
  | [] => none
  | _ =>
    cs.foldl (fun acc c => match acc with
      | none => none
      | some n => if c.isDigit then some (n * 10 + (c.toNat - 48)) else none)
      (some 0)

/-- Python `int(s)` on a string: optional surrounding whitespace, an
optional sign, then decimal digits; `none` models a `ValueError`. -/
def pyIntOfString (s : String) : Option Int :=
  match (pyStrip s).data with
  | '+' :: rest => (digitsVal rest).map Int.ofNat
  | '-' :: rest => (digitsVal rest).map (fun n => -(n : Int))
  | l => (digitsVal l).map Int.ofNat

/-- `llm.py` line 50: the diff-size cap. -/
def MAX_DIFF_CHARS : Nat := 15000

/-- `llm.py` lines 51-53: cap the diff at `MAX_DIFF_CHARS` characters and
record whether truncation happened. -/
def truncate_diff (diff_content : String) : String × Bool :=
  if pyLen diff_content > MAX_DIFF_CHARS then
    (pyTake diff_content MAX_DIFF_CHARS, true)
  else
    (diff_content, false)

/-- `llm.py` lines 73-81: safe metadata extraction.  `results` is read
with `.get`, `total_findings` is `len(results)` only when `results` is a
list, `relevant_findings` is `results[:5]` for a non-empty list and the
sentinel string otherwise; `version`, `errors` and `paths.scanned` get
`"N/A"`/`"None"` defaults.  The `Except` channel models the Python
`AttributeError` raised when a `.get` receiver is not a dict (the report
itself, or its `paths` field). -/
def analysis_metadata (semgrep_json : JsonVal) (diff_truncated : Bool) :
    Except String (List (String × JsonVal)) :=
  match pyGetN semgrep_json "results" with
  | Except.error e => Except.error e
  | Except.ok results =>
    match pyGetD semgrep_json "version" (JsonVal.str "N/A") with
    | Except.error e => Except.error e
    | Except.ok version =>
      match pyGetD semgrep_json "errors" (JsonVal.str "None") with
      | Except.error e => Except.error e
      | Except.ok errors =>
        match pyGetD semgrep_json "paths" (JsonVal.obj []) with
        | Except.error e => Except.error e
        | Except.ok paths =>
          match pyGetD paths "scanned" (JsonVal.str "N/A") with
          | Except.error e => Except.error e
          | Except.ok scanned =>
            Except.ok
              [ ("diff_truncated", JsonVal.bool diff_truncated),
                ("version", version),
                ("total_findings", JsonVal.num
                  (match results with
                   | JsonVal.arr rs => (rs.length : Int)
                   | _ => 0)),
                ("errors", errors),
                ("paths_scanned", scanned),
                ("relevant_findings",
                  match results with
                  | JsonVal.arr rs =>
                    if rs.isEmpty then JsonVal.str "No findings."
                    else JsonVal.arr (rs.take 5)
                  | _ => JsonVal.str "No findings.") ]

/-- A report shape on which `analysis_metadata` cannot raise: the report
is a JSON object and its `paths` member, when present, is an object. -/
def reportShapeOk (v : JsonVal) : Bool :=
  match v with
  | JsonVal.obj fields =>
    match assocFind fields "paths" with
    | some (JsonVal.obj _) => true
    | some _ => false
    | none => true
  | _ => false

/-- `Except.isOk`. -/
def exceptIsOk {ε α : Type} (e : Except ε α) : Bool :=
  match e with
  | Except.ok _ => true
  | Except.error _ => false

/-- An observable action of a script run, in program order. -/
inductive Event where
  | printed (s : String) : Event
  | wroteFile (path : String) (content : String) : Event
  | llmCalled (prompt : String) : Event
  | postedComment (body : String) : Event
deriving DecidableEq

/-- True when the trace contains an LLM call. -/
def llmAttempted (events : List Event) : Bool :=
  events.any (fun e => match e with
    | Event.llmCalled _ => true
    | _ => false)

/-- True when the trace contains a posted PR comment. -/
def postAttempted (events : List Event) : Bool :=
  events.any (fun e => match e with
    | Event.postedComment _ => true
    | _ => false)

/-- The prompt data assembled by a run that reached prompt construction:
the (possibly truncated) diff, the serialized metadata embedded in the
prompt, the metadata record itself and the full prompt text. -/
structure BuiltPrompt where
  diff : String
  metaJson : String
  metaFields : List (String × JsonVal)
  prompt : String

/-- The outcome of a script run: process exit code, the ordered trace of
observable events, and the prompt data when one was built. -/
structure RunResult where
  exitCode : Nat
  events : List Event
  built : Option BuiltPrompt

/-- The environment variables read by `llm.py` (and by
`pr_review_agent_final.py`, which reads the same three). -/
structure LlmEnv where
  gemini_api_key : Option String
  pr_number : Option String
  semgrep_config : Option String

/-- `llm.py` lines 95-112: the system prompt, an f-string embedding the
diff text and the serialized metadata. -/
def llm_SystemPrompt (diff_content : String) (metaJson : String) : String :=
  "\nYou are an expert, meticulous technical Pull Request (PR) reviewer.\nYour goal is to analyze the provided PR diff and static analysis data, and generate a concise, structured review summary.\n\n### INPUT DATA\n- **PR Diff:**\n" ++ diff_content ++ "\n\n- **Semgrep Metadata (relevant findings included):**\n" ++ metaJson ++ "\n\n### CONSTRAINTS\n- The total review text must be concise (strive for under 140 words).\n- Your review must adhere *strictly* to the output format provided in the User Prompt.\n- Do not invent information.\n- Do not use any introductory sentences.\n- Do not mention any tool names.\n"

/-- `llm.py` lines 114-131: the fixed user prompt. -/
def llm_UserPrompt : String :=
  "\nGenerate the automated PR review summary based *only* on the input data above.\n\n**Output Format (START IMMEDIATELY with \x27## Why It Matters\x27 and use markdown headings in this exact order):**\n\n## Why It Matters\n[A short paragraph explaining the impact]\n\n## Issues\n[State any security/logic issues found. If none, state: \x27No critical issues found.\x27]\n\n## Changes Required\n[List 1–2 essential fixes. If none, state: \x27No immediate changes required.\x27]\n\n## Summary\n- [Bullet 1]\n- [Bullet 2]\n"

/-- `llm.py` lines 58-69: read the Semgrep JSON; a falsy path, a missing
file or a parse failure degrades to an empty report with a warning. -/
def read_semgrep (semgrep_path : Option String) (fs : String → Option String)
    (parseJson : String → Except String JsonVal) : JsonVal × List Event :=
  match semgrep_path with
  | some sp =>
    if !sp.isEmpty then
      match fs sp with
      | some content =>
        match parseJson content with
        | Except.ok j => (j, [])
        | Except.error _ =>
          (JsonVal.obj [], [Event.printed "Warning: Failed to parse Semgrep JSON. Proceeding without findings."])
      | none =>
        (JsonVal.obj [], [Event.printed "Warning: Semgrep file not found. Proceeding without findings."])
    else
      (JsonVal.obj [], [Event.printed "Warning: Semgrep file not found. Proceeding without findings."])
  | none =>
    (JsonVal.obj [], [Event.printed "Warning: Semgrep file not found. Proceeding without findings."])

/-- The top-level flow of `llm.py`: credential check, diff-path check,
diff read, too-small early exit, truncation, Semgrep read, metadata
extraction, metadata persistence, prompt construction, LLM call.
`fs` maps a path to its content (`none` = the file does not exist),
`parseJson` models `json.load`, `dumps` models
`json.dumps(·, indent=2)` and `llmResponse` models the
`generate_content` call (`Except.error` = an `APIError`). -/
def llm_main (env : LlmEnv) (args : List String)
    (fs : String → Option String)
    (parseJson : String → Except String JsonVal)
    (dumps : List (String × JsonVal) → String)
    (llmResponse : Except String String) : RunResult :=
  if !pyTruthy env.gemini_api_key then
    { exitCode := 1,
      events := [Event.printed "Error: GEMINI_API_KEY environment variable not set. LLM review cannot be generated."],
      built := none }
  else
    match args.head? with
    | none =>
      { exitCode := 1,
        events := [Event.printed "Error: PR Diff path not provided. Exiting."],
        built := none }
    | some dp =>
      if dp.isEmpty then
        { exitCode := 1,
          events := [Event.printed "Error: PR Diff path not provided. Exiting."],
          built := none }
      else
        match fs dp with
        | none =>
          { exitCode := 1,
            events := [Event.printed ("FATAL ERROR: PR diff file not found at expected path: " ++ dp),
                       Event.printed "Check the \x27Fetch PR Diff\x27 step output to ensure the file was created."],
            built := none }
        | some diff_content0 =>
          if pyLen (pyStrip diff_content0) < 10 then
            { exitCode := 0,
              events := [Event.printed "Diff missing or too small to review. Exiting."],
              built := none }
          else
            let td := truncate_diff diff_content0
            let truncEvents : List Event :=
              if td.snd then [Event.printed "Warning: Diff content truncated to 15000 characters."] else []
            let sg := read_semgrep (args.get? 1) fs parseJson
            match analysis_metadata sg.fst td.snd with
            | Except.error _ =>
              { exitCode := 1, events := truncEvents ++ sg.snd, built := none }
            | Except.ok md =>
              let metaJson := dumps md
              let preEvents := truncEvents ++ sg.snd ++
                [Event.wroteFile "analysis_output/semgrep_metadata.json" metaJson,
                 Event.printed "Saved Semgrep metadata → analysis_output/semgrep_metadata.json"]
              let prompt := llm_SystemPrompt td.fst metaJson ++ "\n\n" ++ llm_UserPrompt
              let b : BuiltPrompt :=
                { diff := td.fst, metaJson := metaJson, metaFields := md, prompt := prompt }
              match llmResponse with
              | Except.ok t =>
                { exitCode := 0,
                  events := preEvents ++ [Event.llmCalled prompt, Event.printed (pyStrip t)],
                  built := some b }
              | Except.error e =>
                { exitCode := 1,
                  events := preEvents ++ [Event.llmCalled prompt,
                    Event.printed ("Error: Gemini API call failed: " ++ e)],
                  built := some b }

/-- `pr_review_agent_final.py` lines 35-42: the metadata record built
without the safety guards of `llm.py`: `version`, `configs`, `rules`,
`paths_scanned` and `errors` use plain `.get` (default `None`), and
`total_findings` is `len(semgrep_json.get("results", []))`, which raises
`TypeError` when `results` is a number, boolean or `None`. -/
def final_metadata (semgrep_json : JsonVal) :
    Except String (List (String × JsonVal)) :=
  match pyGetN semgrep_json "version" with
  | Except.error e => Except.error e
  | Except.ok version =>
    match pyGetN semgrep_json "configs" with
    | Except.error e => Except.error e
    | Except.ok configs =>
      match pyGetN semgrep_json "rules" with
      | Except.error e => Except.error e
      | Except.ok rules =>
        match pyGetD semgrep_json "paths" (JsonVal.obj []) with
        | Except.error e => Except.error e
        | Except.ok paths =>
          match pyGetN paths "scanned" with
          | Except.error e => Except.error e
          | Except.ok scanned =>
            match pyGetN semgrep_json "errors" with
            | Except.error e => Except.error e
            | Except.ok errors =>
              match pyGetD semgrep_json "results" (JsonVal.arr []) with
              | Except.error e => Except.error e
              | Except.ok results =>
                match pyLenOf results with
                | Except.error e => Except.error e
                | Except.ok n =>
                  Except.ok
                    [ ("version", version),
                      ("configs", configs),
                      ("rules", rules),
                      ("paths_scanned", scanned),
                      ("errors", errors),
                      ("total_findings", JsonVal.num (n : Int)) ]

/-- `pr_review_agent_final.py` lines 53-79: the prompt f-string. -/
def final_SystemPrompt (diff_content : String) (metaJson : String) : String :=
  "\nYou are an expert technical PR reviewer.\n\n### DIFF\n" ++ diff_content ++ "\n\n### SEMGREP METADATA\n" ++ metaJson ++ "\n\n### OUTPUT FORMAT (max 140 words)\n\n### Summary\n- 2–3 bullets (exact PR changes).\n\n### Why It Matters\n- Real reasoning based only on diff.\n\n### Issues\n- Real issues found in diff.\n\n### Changes Required\n- 1–2 essential fixes.\n\nRULES:\n- No hallucinations\n- Use only diff + metadata\n"

/-- Modelled from the spec: `genai.Client` is library code that is not
part of this repository; per the spec (`ConfigError` — required
credential absent; fatal, no retry, process must exit non-zero before
attempting the call), constructing the client with a missing or empty
credential fails before any request is issued. -/
def genai_client_init (api_key : Option String) : Except String Unit :=
  if pyTruthy api_key then Except.ok () else Except.error "ConfigError: missing API key"

/-- `pr_review_agent_final.py` lines 16-19 and `pr_summary_agent.py`
lines 36-39: the diff is read only when the path is truthy and the file
exists; otherwise the content silently stays empty. -/
def read_diff_loose (args : List String) (fs : String → Option String) : String :=
  match args.head? with
  | some dp =>
    if !dp.isEmpty then
      match fs dp with
      | some c => c
      | none => ""
    else ""
  | none => ""

/-- `pr_review_agent_final.py` lines 26-32: read the Semgrep JSON with a
bare `except` that silently degrades any failure to an empty report. -/
def final_read_semgrep (semgrep_path : Option String) (fs : String → Option String)
    (parseJson : String → Except String JsonVal) : JsonVal :=
  match semgrep_path with
  | some sp =>
    if !sp.isEmpty then
      match fs sp with
      | some content =>
        match parseJson content with
        | Except.ok j => j
        | Except.error _ => JsonVal.obj []
      | none => JsonVal.obj []
    else JsonVal.obj []
  | none => JsonVal.obj []

/-- The top-level flow of `pr_review_agent_final.py`: parse `PR_NUMBER`
with `int(...)` (uncaught `TypeError`/`ValueError` when absent or
malformed), read the diff without an existence error (missing file means
empty content), exit 0 on an untrimmed length below 10, read the Semgrep
JSON with a bare `except`, build the metadata without safety guards,
persist it, build the prompt, construct the client and call the LLM with
no exception handler. -/
def final_main (env : LlmEnv) (args : List String)
    (fs : String → Option String)
    (parseJson : String → Except String JsonVal)
    (dumps : List (String × JsonVal) → String)
    (llmResponse : Except String String) : RunResult :=
  match env.pr_number with
  | none => { exitCode := 1, events := [], built := none }
  | some prs =>
    match pyIntOfString prs with
    | none => { exitCode := 1, events := [], built := none }
    | some _ =>
      let diff_content := read_diff_loose args fs
      if pyLen diff_content < 10 then
        { exitCode := 0,
          events := [Event.printed "Diff missing or too small. Exiting."],
          built := none }
      else
        let semgrep_json := final_read_semgrep (args.get? 1) fs parseJson
        match final_metadata semgrep_json with
        | Except.error _ => { exitCode := 1, events := [], built := none }
        | Except.ok md =>
          let metaJson := dumps md
          let preEvents :=
            [Event.wroteFile "analysis_output/semgrep_metadata.json" metaJson,
             Event.printed "Saved Semgrep metadata → analysis_output/semgrep_metadata.json"]
          let prompt := final_SystemPrompt diff_content metaJson
          match genai_client_init env.gemini_api_key with
          | Except.error _ => { exitCode := 1, events := preEvents, built := none }
          | Except.ok _ =>
            match llmResponse with
            | Except.ok t =>
              { exitCode := 0,
                events := preEvents ++ [Event.llmCalled prompt, Event.printed (pyStrip t)],
                built := some { diff := diff_content, metaJson := metaJson,
                                metaFields := md, prompt := prompt } }
            | Except.error _ =>
              { exitCode := 1,
                events := preEvents ++ [Event.llmCalled prompt],
                built := none }

/-- The environment variables read by `pr_summary_agent.py`. -/
structure SummaryEnv where
  gemini_api_key : Option String
  github_token : Option String
  repo_full_name : Option String
  pr_number_raw : Option String
  semgrep_config : Option String

/-- `pr_summary_agent.py` lines 15-18: `int(os.getenv("PR_NUMBER"))`
with `TypeError`/`ValueError` caught and degraded to `None`. -/
def summary_pr_number (raw : Option String) : Option Int :=
  raw.bind pyIntOfString

/-- `pr_summary_agent.py` line 158: the fixed text returned (not raised)
when the Gemini call fails. -/
def GEMINI_FAILURE_TEXT : String :=
  "Gemini API Call Failed. Check service connection or API key validity."

/-- `pr_summary_agent.py` lines 102-132: the user-message template built
by `create_mega_prompt` around the diff, the findings count and the
sorted-keys JSON dump of the findings. -/
def summary_content_template (diff_content : String) (totalFindings : Nat)
    (findingsJson : String) : String :=
  "\n### DIFF\n```diff\n" ++ diff_content ++ "\n```\n\n### SEMGREP FINDINGS\nTotal Findings: " ++ toString totalFindings ++ "\n\n```json\n" ++ findingsJson ++ "\n```\n\n### REQUIRED OUTPUT FORMAT (Strictly adhere to this structure. Max 140 words total.)\n\n### Summary\n- 2–3 bullets detailing exact PR changes.\n\n### Why It Matters\n- Real reasoning based only on diff and security findings.\n\n### Issues\n- Synthesized list of real issues found in diff and tool output.\n\n### Changes Required\n- 1–2 essential fixes that need to be made before merging.\n\nRULES:\n- Do not output the markdown headers *inside* the bullet points.\n- No hallucinations (use only diff and findings).\n"

/-- `pr_summary_agent.py` lines 45-52: read the Semgrep JSON; a parse
failure degrades to an object recording the error text, with a warning;
a falsy path or missing file degrades silently to an empty report. -/
def summary_read_semgrep (semgrep_path : Option String) (fs : String → Option String)
    (parseJson : String → Except String JsonVal) : JsonVal × List Event :=
  match semgrep_path with
  | some sp =>
    if !sp.isEmpty then
      match fs sp with
      | some content =>
        match parseJson content with
        | Except.ok j => (j, [])
        | Except.error e =>
          (JsonVal.obj [("error", JsonVal.str e)],
           [Event.printed ("Warning: Could not parse Semgrep JSON: " ++ e)])
      | none => (JsonVal.obj [], [])
    else (JsonVal.obj [], [])
  | none => (JsonVal.obj [], [])

/-- The top-level flow of `pr_summary_agent.py`: `read_inputs` (exit 0 on
untrimmed diff length below 10, parse failure degraded to an
`{"error": ...}` object), `create_mega_prompt` (raises on a non-dict
report or an unsized `results`), `call_gemini_api` (exit 1 when the
credential is absent; an API exception is caught and replaced by
`GEMINI_FAILURE_TEXT`), then `post_review` (prints instead of posting
when the GitHub token, repo name or PR number is falsy; exits 1 when
posting raises) and the final debug prints.  `dumpsF` models
`json.dumps(·, indent=2, sort_keys=True)` and `postResult` the whole
PyGithub posting block. -/
def summary_main (env : SummaryEnv) (args : List String)
    (fs : String → Option String)
    (parseJson : String → Except String JsonVal)
    (dumpsF : JsonVal → String)
    (llmResponse : Except String String)
    (postResult : Except String Unit) : RunResult :=
  let diff_content := read_diff_loose args fs
  if pyLen diff_content < 10 then
    { exitCode := 0,
      events := [Event.printed "Diff missing or too small. Exiting."],
      built := none }
  else
    let sg := summary_read_semgrep (args.get? 1) fs parseJson
    match pyGetD sg.fst "results" (JsonVal.arr []) with
    | Except.error _ => { exitCode := 1, events := sg.snd, built := none }
    | Except.ok findings =>
      match pyLenOf findings with
      | Except.error _ => { exitCode := 1, events := sg.snd, built := none }
      | Except.ok n =>
        let mega := summary_content_template diff_content n (dumpsF findings)
        if !pyTruthy env.gemini_api_key then
          { exitCode := 1,
            events := sg.snd ++ [Event.printed "Error: GEMINI_API_KEY is not set."],
            built := none }
        else
          let callOutcome : String × List Event :=
            match llmResponse with
            | Except.ok t => (pyStrip t, [Event.llmCalled mega])
            | Except.error e =>
              (GEMINI_FAILURE_TEXT,
               [Event.llmCalled mega,
                Event.printed ("Error during Gemini API call: " ++ e)])
          let review_output := callOutcome.fst
          let ev := sg.snd ++ callOutcome.snd
          let cannotPost : RunResult :=
            { exitCode := 0,
              events := ev ++
                [Event.printed "Error: Missing GitHub token or PR metadata. Cannot post review.",
                 Event.printed ("Generated Review:\n" ++ review_output),
                 Event.printed "\n--- Final Review Output ---\n",
                 Event.printed review_output],
              built := none }
          match summary_pr_number env.pr_number_raw with
          | none => cannotPost
          | some npr =>
            if pyTruthy env.github_token && pyTruthy env.repo_full_name && !(npr == 0) then
              match postResult with
              | Except.ok _ =>
                { exitCode := 0,
                  events := ev ++
                    [Event.postedComment
                       ("## Automated Gemini Code Review for PR #" ++ toString npr ++ "\n\n" ++ review_output),
                     Event.printed "Successfully posted consolidated review to Pull Request.",
                     Event.printed "\n--- Final Review Output ---\n",
                     Event.printed review_output],
                  built := none }
              | Except.error e =>
                { exitCode := 1,
                  events := ev ++
                    [Event.printed ("Error posting comment to GitHub: " ++ e),
                     Event.printed ("Generated Review (not posted):\n" ++ review_output)],
                  built := none }
            else cannotPost

/-- `d.get(k, default)` on a dict known to be a dict. -/
def getD (fields : List (String × JsonVal)) (k : String) (d : JsonVal) : JsonVal :=
  match assocFind fields k with
  | some x => x
  | none => d

/-- The `results` field of a report when it is a well-formed list
(`isinstance(results, list)` in the source), else `none`. -/
def resultsList (j : JsonVal) : Option (List JsonVal) :=
  match pyDictLookup j "results" with
  | some (JsonVal.arr rs) => some rs
  | _ => none

/-- The diff text a run passed to the prompt builder, when it built one. -/
def builtDiff (r : RunResult) : Option String :=
  match r.built with
  | some b => some b.diff
  | none => none

/-- The metadata record a run embedded in its prompt, when it built one. -/
def builtFields (r : RunResult) : Option (List (String × JsonVal)) :=
  match r.built with
  | some b => some b.metaFields
  | none => none

/-- A one-file filesystem. -/
def fsWith (path content : String) : String → Option String :=
  fun p => if p = path then some content else none

/-- A two-file filesystem. -/
def fsWith2 (p1 c1 p2 c2 : String) : String → Option String :=
  fun p => if p = p1 then some c1 else if p = p2 then some c2 else none

/-- A JSON parser stub returning a fixed value (models `json.load` on a
file whose decoded content is that value). -/
def parseConst (j : JsonVal) : String → Except String JsonVal :=
  fun _ => Except.ok j

/-- A JSON parser stub that always fails to decode. -/
def parseFail : String → Except String JsonVal :=
  fun _ => Except.error "JSONDecodeError"

/-- A serializer stub for metadata records. -/
def dumpsStub : List (String × JsonVal) → String :=
  fun _ => "serialized-metadata"

/-- A serializer stub for findings values. -/
def dumpsFStub : JsonVal → String :=
  fun _ => "serialized-findings"

/-- A small concrete diff text (24 characters, none of them stripped). -/
def diffSmallW : String := "diff --git a/x.py b/y.py"

/-- A whitespace-only diff of 12 characters (stripped length 0). -/
def diffBlank12 : String := "            "

/-- Scenario-D findings report: six findings and a version. -/
def reportD : JsonVal :=
  JsonVal.obj
    [ ("results", JsonVal.arr
        [JsonVal.num 1, JsonVal.num 2, JsonVal.num 3,
         JsonVal.num 4, JsonVal.num 5, JsonVal.num 6]),
      ("version", JsonVal.str "1.0") ]

/-- The metadata record `analysis_metadata` produces for `reportD` with
an untruncated diff. -/
def metadataD : List (String × JsonVal) :=
  [ ("diff_truncated", JsonVal.bool false),
    ("version", JsonVal.str "1.0"),
    ("total_findings", JsonVal.num 6),
    ("errors", JsonVal.str "None"),
    ("paths_scanned", JsonVal.str "N/A"),
    ("relevant_findings", JsonVal.arr
      [JsonVal.num 1, JsonVal.num 2, JsonVal.num 3,
       JsonVal.num 4, JsonVal.num 5]) ]

/-- The metadata record `analysis_metadata` produces for an empty report
with an untruncated diff. -/
def metadataEmptyW : List (String × JsonVal) :=
  [ ("diff_truncated", JsonVal.bool false),
    ("version", JsonVal.str "N/A"),
    ("total_findings", JsonVal.num 0),
    ("errors", JsonVal.str "None"),
    ("paths_scanned", JsonVal.str "N/A"),
    ("relevant_findings", JsonVal.str "No findings.") ]

/-- A findings report whose `paths` field is a string instead of an
object: `{"paths": "scanned"}`. -/
def reportBadPaths : JsonVal :=
  JsonVal.obj [("paths", JsonVal.str "scanned")]

/-- The prompt data built by the witness run of `llm.py` used below: a
24-character diff, no Semgrep file, the stub serializer. -/
def builtW : BuiltPrompt :=
  { diff := diffSmallW,
    metaJson := dumpsStub metadataEmptyW,
    metaFields := metadataEmptyW,
    prompt := llm_SystemPrompt diffSmallW (dumpsStub metadataEmptyW) ++ "\n\n" ++ llm_UserPrompt }

/-- True when the trace consists solely of printed lines. -/
def onlyPrinted (events : List Event) : Bool :=
  events.all (fun e => match e with
    | Event.printed _ => true
    | _ => false)

/-! ## Supporting lemmas -/

theorem pyGetD_obj (fields : List (String × JsonVal)) (k : String) (d : JsonVal) :
    pyGetD (JsonVal.obj fields) k d = Except.ok (getD fields k d) := by
  unfold pyGetD getD
  cases h : assocFind fields k <;> simp [h]

theorem analysis_metadata_obj (fields : List (String × JsonVal)) (b : Bool) :
    analysis_metadata (JsonVal.obj fields) b =
      match getD fields "paths" (JsonVal.obj []) with
      | JsonVal.obj pfields =>
        Except.ok
          [ ("diff_truncated", JsonVal.bool b),
            ("version", getD fields "version" (JsonVal.str "N/A")),
            ("total_findings", JsonVal.num
              (match getD fields "results" JsonVal.null with
               | JsonVal.arr rs => (rs.length : Int)
               | _ => 0)),
            ("errors", getD fields "errors" (JsonVal.str "None")),
            ("paths_scanned", getD pfields "scanned" (JsonVal.str "N/A")),
            ("relevant_findings",
              match getD fields "results" JsonVal.null with
              | JsonVal.arr rs =>
                if rs.isEmpty then JsonVal.str "No findings."
                else JsonVal.arr (rs.take 5)
              | _ => JsonVal.str "No findings.") ]
      | _ => Except.error "AttributeError" := by
  unfold analysis_metadata pyGetN
  simp only [pyGetD_obj]
  cases hgp : getD fields "paths" (JsonVal.obj []) with
  | obj pfields => simp [pyGetD_obj]
  | null => simp [pyGetD]
  | bool x => simp [pyGetD]
  | num x => simp [pyGetD]
  | str x => simp [pyGetD]
  | arr x => simp [pyGetD]

theorem analysis_metadata_nonobj (j : JsonVal) (b : Bool)
    (h : ∀ fields, j ≠ JsonVal.obj fields) :
    analysis_metadata j b = Except.error "AttributeError" := by
  cases j with
  | obj fields => exact absurd rfl (h fields)
  | null => rfl
  | bool b2 => rfl
  | num n => rfl
  | str s => rfl
  | arr xs => rfl

theorem metadata_keys (j : JsonVal) (b : Bool) (md : List (String × JsonVal))
    (h : analysis_metadata j b = Except.ok md) :
    md.map Prod.fst =
      ["diff_truncated", "version", "total_findings", "errors",
       "paths_scanned", "relevant_findings"] := by
  cases j
  case obj fields =>
    rw [analysis_metadata_obj] at h
    split at h
    · injection h with h2
      subst h2
      rfl
    · simp at h
  all_goals simp [analysis_metadata, pyGetN, pyGetD] at h

theorem metadata_diff_truncated (j : JsonVal) (b : Bool) (md : List (String × JsonVal))
    (h : analysis_metadata j b = Except.ok md) :
    assocFind md "diff_truncated" = some (JsonVal.bool b) := by
  cases j
  case obj fields =>
    rw [analysis_metadata_obj] at h
    split at h
    · injection h with h2
      subst h2
      simp [assocFind]
    · simp at h
  all_goals simp [analysis_metadata, pyGetN, pyGetD] at h

theorem truncate_diff_gt (d : String) (h : pyLen d > MAX_DIFF_CHARS) :
    truncate_diff d = (pyTake d MAX_DIFF_CHARS, true) := by
  unfold truncate_diff
  rw [if_pos h]

theorem truncate_diff_le (d : String) (h : ¬ pyLen d > MAX_DIFF_CHARS) :
    truncate_diff d = (d, false) := by
  unfold truncate_diff
  rw [if_neg h]

theorem pyLen_pyTake (d : String) (n : Nat) (h : n ≤ pyLen d) :
    pyLen (pyTake d n) = n := by
  unfold pyLen at h
  show (d.data.take n).length = n
  simp only [List.length_take]
  omega

theorem llm_main_no_key (env : LlmEnv) (args : List String) (fs : String → Option String)
    (p : String → Except String JsonVal) (dm : List (String × JsonVal) → String)
    (r : Except String String)
    (hk : pyTruthy env.gemini_api_key = false) :
    llm_main env args fs p dm r =
      { exitCode := 1,
        events := [Event.printed "Error: GEMINI_API_KEY environment variable not set. LLM review cannot be generated."],
        built := none } := by
  unfold llm_main
  rw [hk]
  simp

theorem llm_main_no_path (env : LlmEnv) (args : List String) (fs : String → Option String)
    (p : String → Except String JsonVal) (dm : List (String × JsonVal) → String)
    (r : Except String String)
    (hk : pyTruthy env.gemini_api_key = true)
    (h0 : args.head? = none) :
    llm_main env args fs p dm r =
      { exitCode := 1,
        events := [Event.printed "Error: PR Diff path not provided. Exiting."],
        built := none } := by
  unfold llm_main
  rw [hk, h0]
  simp

theorem llm_main_empty_path (env : LlmEnv) (args : List String) (fs : String → Option String)
    (p : String → Except String JsonVal) (dm : List (String × JsonVal) → String)
    (r : Except String String) (dp : String)
    (hk : pyTruthy env.gemini_api_key = true)
    (h0 : args.head? = some dp)
    (hdp : dp.isEmpty = true) :
    llm_main env args fs p dm r =
      { exitCode := 1,
        events := [Event.printed "Error: PR Diff path not provided. Exiting."],
        built := none } := by
  unfold llm_main
  rw [hk, h0]
  simp [hdp]

theorem llm_main_no_file (env : LlmEnv) (args : List String) (fs : String → Option String)
    (p : String → Except String JsonVal) (dm : List (String × JsonVal) → String)
    (r : Except String String) (dp : String)
    (hk : pyTruthy env.gemini_api_key = true)
    (h0 : args.head? = some dp)
    (hdp : dp.isEmpty = false)
    (hfs : fs dp = none) :
    llm_main env args fs p dm r =
      { exitCode := 1,
        events := [Event.printed ("FATAL ERROR: PR diff file not found at expected path: " ++ dp),
                   Event.printed "Check the \x27Fetch PR Diff\x27 step output to ensure the file was created."],
        built := none } := by
  unfold llm_main
  rw [hk, h0]
  simp [hdp, hfs]

theorem llm_main_too_small (env : LlmEnv) (args : List String) (fs : String → Option String)
    (p : String → Except String JsonVal) (dm : List (String × JsonVal) → String)
    (r : Except String String) (dp d : String)
    (hk : pyTruthy env.gemini_api_key = true)
    (h0 : args.head? = some dp)
    (hdp : dp.isEmpty = false)
    (hfs : fs dp = some d)
    (hsm : pyLen (pyStrip d) < 10) :
    llm_main env args fs p dm r =
      { exitCode := 0,
        events := [Event.printed "Diff missing or too small to review. Exiting."],
        built := none } := by
  unfold llm_main
  rw [hk, h0]
  simp [hdp, hfs, hsm]

theorem llm_main_md_error (env : LlmEnv) (args : List String) (fs : String → Option String)
    (p : String → Except String JsonVal) (dm : List (String × JsonVal) → String)
    (r : Except String String) (dp d : String) (e : String)
    (hk : pyTruthy env.gemini_api_key = true)
    (h0 : args.head? = some dp)
    (hdp : dp.isEmpty = false)
    (hfs : fs dp = some d)
    (hsm : ¬ pyLen (pyStrip d) < 10)
    (hmd : analysis_metadata (read_semgrep (args.get? 1) fs p).fst (truncate_diff d).snd =
      Except.error e) :
    llm_main env args fs p dm r =
      { exitCode := 1,
        events :=
          (if (truncate_diff d).snd then
            [Event.printed "Warning: Diff content truncated to 15000 characters."] else [])
          ++ (read_semgrep (args.get? 1) fs p).snd,
        built := none } := by
  unfold llm_main
  rw [hk, h0]
  simp only [List.get?_eq_getElem?] at hmd
  simp [hdp, hfs, hsm, hmd]

theorem llm_main_run (env : LlmEnv) (args : List String) (fs : String → Option String)
    (p : String → Except String JsonVal) (dm : List (String × JsonVal) → String)
    (r : Except String String) (dp d : String) (md : List (String × JsonVal))
    (hk : pyTruthy env.gemini_api_key = true)
    (h0 : args.head? = some dp)
    (hdp : dp.isEmpty = false)
    (hfs : fs dp = some d)
    (hsm : ¬ pyLen (pyStrip d) < 10)
    (hmd : analysis_metadata (read_semgrep (args.get? 1) fs p).fst (truncate_diff d).snd =
      Except.ok md) :
    llm_main env args fs p dm r =
      { exitCode := match r with | Except.ok _ => 0 | Except.error _ => 1,
        events :=
          (if (truncate_diff d).snd then
            [Event.printed "Warning: Diff content truncated to 15000 characters."] else [])
          ++ (read_semgrep (args.get? 1) fs p).snd
          ++ [Event.wroteFile "analysis_output/semgrep_metadata.json" (dm md),
              Event.printed "Saved Semgrep metadata → analysis_output/semgrep_metadata.json"]
          ++ [Event.llmCalled (llm_SystemPrompt (truncate_diff d).fst (dm md) ++ "\n\n" ++ llm_UserPrompt),
              match r with
              | Except.ok t => Event.printed (pyStrip t)
              | Except.error e => Event.printed ("Error: Gemini API call failed: " ++ e)],
        built := some
          { diff := (truncate_diff d).fst,
            metaJson := dm md,
            metaFields := md,
            prompt := llm_SystemPrompt (truncate_diff d).fst (dm md) ++ "\n\n" ++ llm_UserPrompt } } := by
  unfold llm_main
  rw [hk, h0]
  simp only [List.get?_eq_getElem?] at hmd
  cases r <;> simp [hdp, hfs, hsm, hmd]

theorem final_main_no_pr (env : LlmEnv) (args : List String) (fs : String → Option String)
    (p : String → Except String JsonVal) (dm : List (String × JsonVal) → String)
    (r : Except String String)
    (hpr : env.pr_number = none) :
    final_main env args fs p dm r = { exitCode := 1, events := [], built := none } := by
  unfold final_main
  rw [hpr]

theorem final_main_bad_pr (env : LlmEnv) (args : List String) (fs : String → Option String)
    (p : String → Except String JsonVal) (dm : List (String × JsonVal) → String)
    (r : Except String String) (prs : String)
    (hpr : env.pr_number = some prs)
    (hpi : pyIntOfString prs = none) :
    final_main env args fs p dm r = { exitCode := 1, events := [], built := none } := by
  unfold final_main
  rw [hpr]
  simp [hpi]

theorem final_main_too_small (env : LlmEnv) (args : List String) (fs : String → Option String)
    (p : String → Except String JsonVal) (dm : List (String × JsonVal) → String)
    (r : Except String String) (prs : String) (n : Int)
    (hpr : env.pr_number = some prs)
    (hpi : pyIntOfString prs = some n)
    (hsm : pyLen (read_diff_loose args fs) < 10) :
    final_main env args fs p dm r =
      { exitCode := 0,
        events := [Event.printed "Diff missing or too small. Exiting."],
        built := none } := by
  unfold final_main
  rw [hpr]
  simp [hpi, hsm]

theorem final_main_md_error (env : LlmEnv) (args : List String) (fs : String → Option String)
    (p : String → Except String JsonVal) (dm : List (String × JsonVal) → String)
    (r : Except String String) (prs : String) (n : Int) (e : String)
    (hpr : env.pr_number = some prs)
    (hpi : pyIntOfString prs = some n)
    (hsm : ¬ pyLen (read_diff_loose args fs) < 10)
    (hmd : final_metadata (final_read_semgrep (args.get? 1) fs p) = Except.error e) :
    final_main env args fs p dm r = { exitCode := 1, events := [], built := none } := by
  unfold final_main
  rw [hpr]
  simp only [List.get?_eq_getElem?] at hmd
  simp [hpi, hsm, hmd]

theorem final_main_no_client (env : LlmEnv) (args : List String) (fs : String → Option String)
    (p : String → Except String JsonVal) (dm : List (String × JsonVal) → String)
    (r : Except String String) (prs : String) (n : Int) (md : List (String × JsonVal))
    (hpr : env.pr_number = some prs)
    (hpi : pyIntOfString prs = some n)
    (hsm : ¬ pyLen (read_diff_loose args fs) < 10)
    (hmd : final_metadata (final_read_semgrep (args.get? 1) fs p) = Except.ok md)
    (hk : pyTruthy env.gemini_api_key = false) :
    final_main env args fs p dm r =
      { exitCode := 1,
        events := [Event.wroteFile "analysis_output/semgrep_metadata.json" (dm md),
                   Event.printed "Saved Semgrep metadata → analysis_output/semgrep_metadata.json"],
        built := none } := by
  unfold final_main
  rw [hpr]
  simp only [List.get?_eq_getElem?] at hmd
  simp [hpi, hsm, hmd, genai_client_init, hk]

theorem final_main_run (env : LlmEnv) (args : List String) (fs : String → Option String)
    (p : String → Except String JsonVal) (dm : List (String × JsonVal) → String)
    (r : Except String String) (prs : String) (n : Int) (md : List (String × JsonVal))
    (hpr : env.pr_number = some prs)
    (hpi : pyIntOfString prs = some n)
    (hsm : ¬ pyLen (read_diff_loose args fs) < 10)
    (hmd : final_metadata (final_read_semgrep (args.get? 1) fs p) = Except.ok md)
    (hk : pyTruthy env.gemini_api_key = true) :
    final_main env args fs p dm r =
      { exitCode := match r with | Except.ok _ => 0 | Except.error _ => 1,
        events :=
          [Event.wroteFile "analysis_output/semgrep_metadata.json" (dm md),
           Event.printed "Saved Semgrep metadata → analysis_output/semgrep_metadata.json"]
          ++ [Event.llmCalled (final_SystemPrompt (read_diff_loose args fs) (dm md))]
          ++ (match r with
              | Except.ok t => [Event.printed (pyStrip t)]
              | Except.error _ => []),
        built := match r with
          | Except.ok _ => some
              { diff := read_diff_loose args fs,
                metaJson := dm md,
                metaFields := md,
                prompt := final_SystemPrompt (read_diff_loose args fs) (dm md) }
          | Except.error _ => none } := by
  unfold final_main
  rw [hpr]
  simp only [List.get?_eq_getElem?] at hmd
  cases r <;> simp [hpi, hsm, hmd, genai_client_init, hk]

theorem summary_main_too_small (env : SummaryEnv) (args : List String)
    (fs : String → Option String) (p : String → Except String JsonVal)
    (dF : JsonVal → String) (r : Except String String) (post : Except String Unit)
    (hsm : pyLen (read_diff_loose args fs) < 10) :
    summary_main env args fs p dF r post =
      { exitCode := 0,
        events := [Event.printed "Diff missing or too small. Exiting."],
        built := none } := by
  unfold summary_main
  simp [hsm]

theorem summary_main_results_error (env : SummaryEnv) (args : List String)
    (fs : String → Option String) (p : String → Except String JsonVal)
    (dF : JsonVal → String) (r : Except String String) (post : Except String Unit) (e : String)
    (hsm : ¬ pyLen (read_diff_loose args fs) < 10)
    (hres : pyGetD (summary_read_semgrep (args.get? 1) fs p).fst "results" (JsonVal.arr []) =
      Except.error e) :
    summary_main env args fs p dF r post =
      { exitCode := 1,
        events := (summary_read_semgrep (args.get? 1) fs p).snd,
        built := none } := by
  unfold summary_main
  simp only [List.get?_eq_getElem?] at hres
  simp [hsm, hres]

theorem summary_main_len_error (env : SummaryEnv) (args : List String)
    (fs : String → Option String) (p : String → Except String JsonVal)
    (dF : JsonVal → String) (r : Except String String) (post : Except String Unit)
    (fnd : JsonVal) (e : String)
    (hsm : ¬ pyLen (read_diff_loose args fs) < 10)
    (hres : pyGetD (summary_read_semgrep (args.get? 1) fs p).fst "results" (JsonVal.arr []) =
      Except.ok fnd)
    (hlen : pyLenOf fnd = Except.error e) :
    summary_main env args fs p dF r post =
      { exitCode := 1,
        events := (summary_read_semgrep (args.get? 1) fs p).snd,
        built := none } := by
  unfold summary_main
  simp only [List.get?_eq_getElem?] at hres
  simp [hsm, hres, hlen]

theorem summary_main_no_key (env : SummaryEnv) (args : List String)
    (fs : String → Option String) (p : String → Except String JsonVal)
    (dF : JsonVal → String) (r : Except String String) (post : Except String Unit)
    (fnd : JsonVal) (nf : Nat)
    (hsm : ¬ pyLen (read_diff_loose args fs) < 10)
    (hres : pyGetD (summary_read_semgrep (args.get? 1) fs p).fst "results" (JsonVal.arr []) =
      Except.ok fnd)
    (hlen : pyLenOf fnd = Except.ok nf)
    (hk : pyTruthy env.gemini_api_key = false) :
    summary_main env args fs p dF r post =
      { exitCode := 1,
        events := (summary_read_semgrep (args.get? 1) fs p).snd
          ++ [Event.printed "Error: GEMINI_API_KEY is not set."],
        built := none } := by
  unfold summary_main
  simp only [List.get?_eq_getElem?] at hres
  simp [hsm, hres, hlen, hk]

theorem summary_main_llm_error_posted (env : SummaryEnv) (args : List String)
    (fs : String → Option String) (p : String → Except String JsonVal)
    (dF : JsonVal → String) (e : String)
    (fnd : JsonVal) (nf : Nat) (npr : Int)
    (hsm : ¬ pyLen (read_diff_loose args fs) < 10)
    (hres : pyGetD (summary_read_semgrep (args.get? 1) fs p).fst "results" (JsonVal.arr []) =
      Except.ok fnd)
    (hlen : pyLenOf fnd = Except.ok nf)
    (hk : pyTruthy env.gemini_api_key = true)
    (hprn : summary_pr_number env.pr_number_raw = some npr)
    (hnpr : (npr == 0) = false)
    (htok : pyTruthy env.github_token = true)
    (hrepo : pyTruthy env.repo_full_name = true) :
    summary_main env args fs p dF (Except.error e) (Except.ok ()) =
      { exitCode := 0,
        events := (summary_read_semgrep (args.get? 1) fs p).snd
          ++ [Event.llmCalled (summary_content_template (read_diff_loose args fs) nf (dF fnd)),
              Event.printed ("Error during Gemini API call: " ++ e)]
          ++ [Event.postedComment
                ("## Automated Gemini Code Review for PR #" ++ toString npr ++ "\n\n" ++ GEMINI_FAILURE_TEXT),
              Event.printed "Successfully posted consolidated review to Pull Request.",
              Event.printed "\n--- Final Review Output ---\n",
              Event.printed GEMINI_FAILURE_TEXT],
        built := none } := by
  unfold summary_main
  simp only [List.get?_eq_getElem?] at hres
  simp [hsm, hres, hlen, hk, hprn, hnpr, htok, hrepo]

theorem getD_results_of_resultsList (fields : List (String × JsonVal)) (rs : List JsonVal)
    (h : resultsList (JsonVal.obj fields) = some rs) :
    getD fields "results" JsonVal.null = JsonVal.arr rs := by
  simp only [resultsList, pyDictLookup] at h
  unfold getD
  generalize hres : assocFind fields "results" = res at h ⊢
  cases res with
  | none => simp at h
  | some v => cases v <;> simp_all

theorem getD_results_of_not_list (fields : List (String × JsonVal))
    (h : resultsList (JsonVal.obj fields) = none) :
    ∀ rs : List JsonVal, getD fields "results" JsonVal.null ≠ JsonVal.arr rs := by
  simp only [resultsList, pyDictLookup] at h
  unfold getD
  intro rs hc
  generalize hres : assocFind fields "results" = res at h hc
  cases res with
  | none => simp at hc
  | some v => cases v <;> simp_all

/-- Claim C1: whenever findings summarization returns, `total_findings`
equals `len(results)` when `results` is a well-formed list, with
`relevant_findings` the first `min(N,5)` records (or the sentinel for an
empty list); when `results` is missing or not a list, `total_findings`
is 0 and `relevant_findings` is the sentinel `"No findings."`. -/
theorem C1_summarize_counts (j : JsonVal) (b : Bool) (md : List (String × JsonVal))
    (h : analysis_metadata j b = Except.ok md) :
    (∀ rs : List JsonVal, resultsList j = some rs →
      assocFind md "total_findings" = some (JsonVal.num (rs.length : Int)) ∧
      assocFind md "relevant_findings" = some
        (if rs.isEmpty then JsonVal.str "No findings." else JsonVal.arr (rs.take 5)) ∧
      (rs.take 5).length = min rs.length 5) ∧
    (resultsList j = none →
      assocFind md "total_findings" = some (JsonVal.num 0) ∧
      assocFind md "relevant_findings" = some (JsonVal.str "No findings.")) := by
  cases j
  case obj fields =>
    rw [analysis_metadata_obj] at h
    split at h
    · injection h with h2
      subst h2
      constructor
      · intro rs hrs
        have hg := getD_results_of_resultsList fields rs hrs
        rw [hg]
        refine ⟨by simp [assocFind], by simp [assocFind], ?_⟩
        simp [List.length_take]
        omega
      · intro hnone
        have hg := getD_results_of_not_list fields hnone
        rcases hv : getD fields "results" JsonVal.null with _ | b2 | n2 | s2 | xs | fs2
        case arr => exact absurd hv (hg xs)
        all_goals exact ⟨by simp [assocFind], by simp [assocFind]⟩
    · simp at h
  all_goals simp [analysis_metadata, pyGetN, pyGetD] at h

/-- Concrete check of C1 on a report with six findings
(`{"results": [1,2,3,4,5,6], "version": "1.0"}`). -/
theorem C1_summarize_counts_witness :
    analysis_metadata reportD false = Except.ok metadataD ∧
    resultsList reportD = some
      [JsonVal.num 1, JsonVal.num 2, JsonVal.num 3,
       JsonVal.num 4, JsonVal.num 5, JsonVal.num 6] ∧
    assocFind metadataD "total_findings" = some (JsonVal.num 6) ∧
    assocFind metadataD "relevant_findings" = some
      (JsonVal.arr [JsonVal.num 1, JsonVal.num 2, JsonVal.num 3,
                    JsonVal.num 4, JsonVal.num 5]) := by
  have h := C1_summarize_counts reportD false metadataD rfl
  have h2 := h.1
    [JsonVal.num 1, JsonVal.num 2, JsonVal.num 3,
     JsonVal.num 4, JsonVal.num 5, JsonVal.num 6] rfl
  exact ⟨rfl, rfl, h2.1, h2.2.1⟩

/-- Claim C2: in every `llm.py` run that reaches prompt construction, a
diff longer than 15000 characters is passed on as exactly its first
15000 characters with the `diff_truncated` metadata flag `true`, and a
diff of at most 15000 characters is passed on unmodified with the flag
`false`. -/
theorem C2_diff_truncation (env : LlmEnv) (args : List String) (fs : String → Option String)
    (p : String → Except String JsonVal) (dm : List (String × JsonVal) → String)
    (r : Except String String) (dp d : String) (md : List (String × JsonVal))
    (hk : pyTruthy env.gemini_api_key = true)
    (h0 : args.head? = some dp)
    (hdp : dp.isEmpty = false)
    (hfs : fs dp = some d)
    (hsm : ¬ pyLen (pyStrip d) < 10)
    (hmd : analysis_metadata (read_semgrep (args.get? 1) fs p).fst (truncate_diff d).snd =
      Except.ok md) :
    builtDiff (llm_main env args fs p dm r) = some (truncate_diff d).fst ∧
    builtFields (llm_main env args fs p dm r) = some md ∧
    (pyLen d > MAX_DIFF_CHARS →
      (truncate_diff d).fst = pyTake d MAX_DIFF_CHARS ∧
      pyLen (truncate_diff d).fst = MAX_DIFF_CHARS ∧
      assocFind md "diff_truncated" = some (JsonVal.bool true)) ∧
    (¬ pyLen d > MAX_DIFF_CHARS →
      (truncate_diff d).fst = d ∧
      assocFind md "diff_truncated" = some (JsonVal.bool false)) := by
  have hrun := llm_main_run env args fs p dm r dp d md hk h0 hdp hfs hsm hmd
  refine ⟨by rw [hrun]; rfl, by rw [hrun]; rfl, ?_, ?_⟩
  · intro hgt
    have ht := truncate_diff_gt d hgt
    have hflag := metadata_diff_truncated _ _ _ hmd
    rw [ht] at hflag
    exact ⟨by rw [ht], by rw [ht]; exact pyLen_pyTake d MAX_DIFF_CHARS (Nat.le_of_lt hgt),
           hflag⟩
  · intro hle
    have ht := truncate_diff_le d hle
    have hflag := metadata_diff_truncated _ _ _ hmd
    rw [ht] at hflag
    exact ⟨by rw [ht], hflag⟩

/-- Concrete check of C2 on a 24-character diff: passed on unmodified,
flag `false`. -/
theorem C2_diff_truncation_witness :
    builtDiff (llm_main
      { gemini_api_key := some "key", pr_number := none, semgrep_config := none }
      ["diff.txt"] (fsWith "diff.txt" diffSmallW) parseFail dumpsStub (Except.ok "fine"))
      = some diffSmallW ∧
    assocFind metadataEmptyW "diff_truncated" = some (JsonVal.bool false) := by
  have h := C2_diff_truncation
    { gemini_api_key := some "key", pr_number := none, semgrep_config := none }
    ["diff.txt"] (fsWith "diff.txt" diffSmallW) parseFail dumpsStub (Except.ok "fine")
    "diff.txt" diffSmallW metadataEmptyW
    rfl rfl rfl rfl (by decide) rfl
  have h4 := h.2.2.2 (by decide)
  exact ⟨by rw [h.1, h4.1], h4.2⟩

/-- Claim C3 counterexample: on the JSON-decodable findings report
`{"paths": "scanned"}` the metadata extraction of `llm.py` raises an
`AttributeError` (line 79 calls `.get` on the non-dict `paths` value)
instead of degrading to a safe default, and the pipeline then exits 1. -/
theorem C3_extraction_counterexample :
    analysis_metadata reportBadPaths false = Except.error "AttributeError" ∧
    (llm_main { gemini_api_key := some "key", pr_number := none, semgrep_config := none }
      ["diff.txt", "semgrep.json"]
      (fsWith2 "diff.txt" diffSmallW "semgrep.json" "raw-json")
      (parseConst reportBadPaths) dumpsStub (Except.ok "fine")).exitCode = 1 := by
  constructor
  · rfl
  · rfl

/-- Claim C3 (amended): metadata extraction completes with the documented
safe defaults for every JSON-decodable findings report that is a JSON
object whose `paths` member, when present, is itself an object; a report
outside that shape (a non-object report, or a non-object `paths` value)
raises `AttributeError`. -/
theorem C3_extraction_total_amended (j : JsonVal) (b : Bool)
    (h : reportShapeOk j = true) :
    exceptIsOk (analysis_metadata j b) = true := by
  cases j
  case obj fields =>
    rw [analysis_metadata_obj]
    unfold reportShapeOk at h
    unfold getD
    generalize hres : assocFind fields "paths" = res at h ⊢
    cases res with
    | none => simp [exceptIsOk]
    | some v => cases v <;> simp_all [exceptIsOk]
  all_goals simp [reportShapeOk] at h

/-- Concrete check of the amended C3 on a well-shaped report. -/
theorem C3_extraction_total_witness :
    reportShapeOk reportD = true ∧
    exceptIsOk (analysis_metadata reportD true) = true :=
  ⟨rfl, C3_extraction_total_amended reportD true rfl⟩

theorem read_diff_loose_missing (args : List String) (fs : String → Option String)
    (h : args.head? = none ∨ ∃ dp, args.head? = some dp ∧ (dp.isEmpty = true ∨ fs dp = none)) :
    read_diff_loose args fs = "" := by
  unfold read_diff_loose
  rcases h with h0 | ⟨dp, h0, hc⟩
  · rw [h0]
  · rw [h0]
    rcases hc with hc | hc
    · simp [hc]
    · cases hdpe : dp.isEmpty <;> simp [hc, hdpe]

/-- Claim C4 (amended): with the diff path absent or the diff file
missing, no LLM call is ever attempted; `llm.py` exits non-zero, while
`pr_review_agent_final.py` (when `PR_NUMBER` parses) treats the missing
diff as empty content and exits 0 through its "too small" branch. -/
theorem C4_missing_diff_amended :
    (∀ (env : LlmEnv) (args : List String) (fs : String → Option String)
       (p : String → Except String JsonVal) (dm : List (String × JsonVal) → String)
       (r : Except String String),
      (args.head? = none ∨ ∃ dp, args.head? = some dp ∧ (dp.isEmpty = true ∨ fs dp = none)) →
      (llm_main env args fs p dm r).exitCode ≠ 0 ∧
      llmAttempted (llm_main env args fs p dm r).events = false) ∧
    (∀ (env : LlmEnv) (args : List String) (fs : String → Option String)
       (p : String → Except String JsonVal) (dm : List (String × JsonVal) → String)
       (r : Except String String) (prs : String) (n : Int),
      env.pr_number = some prs → pyIntOfString prs = some n →
      (args.head? = none ∨ ∃ dp, args.head? = some dp ∧ (dp.isEmpty = true ∨ fs dp = none)) →
      (final_main env args fs p dm r).exitCode = 0 ∧
      llmAttempted (final_main env args fs p dm r).events = false ∧
      Event.printed "Diff missing or too small. Exiting." ∈ (final_main env args fs p dm r).events) := by
  constructor
  · intro env args fs p dm r h
    cases hk : pyTruthy env.gemini_api_key with
    | false =>
      rw [llm_main_no_key env args fs p dm r hk]
      exact ⟨by simp, by simp [llmAttempted]⟩
    | true =>
      rcases h with h0 | ⟨dp, h0, hc⟩
      · rw [llm_main_no_path env args fs p dm r hk h0]
        exact ⟨by simp, by simp [llmAttempted]⟩
      · rcases hc with hc | hc
        · rw [llm_main_empty_path env args fs p dm r dp hk h0 hc]
          exact ⟨by simp, by simp [llmAttempted]⟩
        · cases hdpe : dp.isEmpty with
          | true =>
            rw [llm_main_empty_path env args fs p dm r dp hk h0 hdpe]
            exact ⟨by simp, by simp [llmAttempted]⟩
          | false =>
            rw [llm_main_no_file env args fs p dm r dp hk h0 hdpe hc]
            exact ⟨by simp, by simp [llmAttempted]⟩
  · intro env args fs p dm r prs n hpr hpi h
    have hd := read_diff_loose_missing args fs h
    have hrun := final_main_too_small env args fs p dm r prs n hpr hpi (by rw [hd]; decide)
    rw [hrun]
    exact ⟨rfl, by simp [llmAttempted], by simp⟩

/-- Concrete check of the amended C4: `llm.py` with no diff argument
exits non-zero; `pr_review_agent_final.py` with a missing diff file
exits 0. -/
theorem C4_missing_diff_witness :
    (llm_main { gemini_api_key := some "key", pr_number := none, semgrep_config := none }
      [] (fun _ => none) parseFail dumpsStub (Except.ok "fine")).exitCode ≠ 0 ∧
    (final_main { gemini_api_key := some "key", pr_number := some "7", semgrep_config := none }
      [] (fun _ => none) parseFail dumpsStub (Except.ok "fine")).exitCode = 0 := by
  constructor
  · exact (C4_missing_diff_amended.1
      { gemini_api_key := some "key", pr_number := none, semgrep_config := none }
      [] (fun _ => none) parseFail dumpsStub (Except.ok "fine") (Or.inl rfl)).1
  · exact (C4_missing_diff_amended.2
      { gemini_api_key := some "key", pr_number := some "7", semgrep_config := none }
      [] (fun _ => none) parseFail dumpsStub (Except.ok "fine") "7" 7 rfl rfl (Or.inl rfl)).1

/-- Claim C4 counterexample: a `pr_review_agent_final.py` run whose diff
file does not exist exits with code 0 (not non-zero as claimed), via the
"Diff missing or too small" branch. -/
theorem C4_missing_diff_counterexample :
    (final_main { gemini_api_key := some "key", pr_number := some "1", semgrep_config := none }
      ["missing.diff"] (fun _ => none) parseFail dumpsStub (Except.ok "fine")).exitCode = 0 ∧
    llmAttempted (final_main
      { gemini_api_key := some "key", pr_number := some "1", semgrep_config := none }
      ["missing.diff"] (fun _ => none) parseFail dumpsStub (Except.ok "fine")).events = false := by
  constructor
  · rfl
  · rfl

theorem onlyPrinted_no_llm (evs : List Event) (h : onlyPrinted evs = true) :
    llmAttempted evs = false := by
  induction evs with
  | nil => rfl
  | cons e rest ih => cases e <;> simp_all [onlyPrinted, llmAttempted]

theorem onlyPrinted_no_post (evs : List Event) (h : onlyPrinted evs = true) :
    postAttempted evs = false := by
  induction evs with
  | nil => rfl
  | cons e rest ih => cases e <;> simp_all [onlyPrinted, postAttempted]

theorem read_semgrep_onlyPrinted (sp : Option String) (fs : String → Option String)
    (p : String → Except String JsonVal) :
    onlyPrinted (read_semgrep sp fs p).snd = true := by
  unfold read_semgrep
  rcases sp with _ | s
  · rfl
  · by_cases hse : s.isEmpty
    · simp [hse, onlyPrinted]
    · cases hfs : fs s with
      | none => simp [hse, hfs, onlyPrinted]
      | some content =>
        cases hpj : p content with
        | ok j => simp [hse, hfs, hpj, onlyPrinted]
        | error e2 => simp [hse, hfs, hpj, onlyPrinted]

theorem summary_read_semgrep_onlyPrinted (sp : Option String) (fs : String → Option String)
    (p : String → Except String JsonVal) :
    onlyPrinted (summary_read_semgrep sp fs p).snd = true := by
  unfold summary_read_semgrep
  rcases sp with _ | s
  · rfl
  · by_cases hse : s.isEmpty
    · simp [hse, onlyPrinted]
    · cases hfs : fs s with
      | none => simp [hse, hfs, onlyPrinted]
      | some content =>
        cases hpj : p content with
        | ok j => simp [hse, hfs, hpj, onlyPrinted]
        | error e2 => simp [hse, hfs, hpj, onlyPrinted]

@[simp] theorem llmAttempted_nil : llmAttempted [] = false := rfl

@[simp] theorem llmAttempted_cons (e : Event) (evs : List Event) :
    llmAttempted (e :: evs) =
      ((match e with | Event.llmCalled _ => true | _ => false) || llmAttempted evs) := by
  simp [llmAttempted]

@[simp] theorem llmAttempted_append (a b : List Event) :
    llmAttempted (a ++ b) = (llmAttempted a || llmAttempted b) := by
  simp [llmAttempted]

@[simp] theorem postAttempted_nil : postAttempted [] = false := rfl

@[simp] theorem postAttempted_cons (e : Event) (evs : List Event) :
    postAttempted (e :: evs) =
      ((match e with | Event.postedComment _ => true | _ => false) || postAttempted evs) := by
  simp [postAttempted]

@[simp] theorem postAttempted_append (a b : List Event) :
    postAttempted (a ++ b) = (postAttempted a || postAttempted b) := by
  simp [postAttempted]

/-- Claim C5 (amended): in `llm.py`, a run whose LLM call raises an
`APIError` exits with code 1 after printing a diagnostic, and no PR
comment is ever posted (`llm.py` posts none).  In `pr_summary_agent.py`,
however, a failing LLM call is caught and replaced by the fixed failure
string, which — when GitHub credentials and a PR number are present and
posting succeeds — is posted as the review comment with exit code 0. -/
theorem C5_llm_error_amended :
    (∀ (env : LlmEnv) (args : List String) (fs : String → Option String)
       (p : String → Except String JsonVal) (dm : List (String × JsonVal) → String)
       (e : String),
      llmAttempted (llm_main env args fs p dm (Except.error e)).events = true →
      (llm_main env args fs p dm (Except.error e)).exitCode = 1 ∧
      Event.printed ("Error: Gemini API call failed: " ++ e)
        ∈ (llm_main env args fs p dm (Except.error e)).events ∧
      postAttempted (llm_main env args fs p dm (Except.error e)).events = false) ∧
    (∀ (env : SummaryEnv) (args : List String) (fs : String → Option String)
       (p : String → Except String JsonVal) (dF : JsonVal → String)
       (e : String) (fnd : JsonVal) (nf : Nat) (npr : Int),
      ¬ pyLen (read_diff_loose args fs) < 10 →
      pyGetD (summary_read_semgrep (args.get? 1) fs p).fst "results" (JsonVal.arr []) =
        Except.ok fnd →
      pyLenOf fnd = Except.ok nf →
      pyTruthy env.gemini_api_key = true →
      summary_pr_number env.pr_number_raw = some npr →
      (npr == 0) = false →
      pyTruthy env.github_token = true →
      pyTruthy env.repo_full_name = true →
      (summary_main env args fs p dF (Except.error e) (Except.ok ())).exitCode = 0 ∧
      Event.postedComment
          ("## Automated Gemini Code Review for PR #" ++ toString npr ++ "\n\n" ++ GEMINI_FAILURE_TEXT)
        ∈ (summary_main env args fs p dF (Except.error e) (Except.ok ())).events) := by
  constructor
  · intro env args fs p dm e hatt
    cases hk : pyTruthy env.gemini_api_key with
    | false =>
      rw [llm_main_no_key env args fs p dm (Except.error e) hk] at hatt
      simp at hatt
    | true =>
      cases h0 : args.head? with
      | none =>
        rw [llm_main_no_path env args fs p dm (Except.error e) hk h0] at hatt
        simp at hatt
      | some dp =>
        cases hdpe : dp.isEmpty with
        | true =>
          rw [llm_main_empty_path env args fs p dm (Except.error e) dp hk h0 hdpe] at hatt
          simp at hatt
        | false =>
          cases hfs : fs dp with
          | none =>
            rw [llm_main_no_file env args fs p dm (Except.error e) dp hk h0 hdpe hfs] at hatt
            simp at hatt
          | some d =>
            by_cases hsm : pyLen (pyStrip d) < 10
            · rw [llm_main_too_small env args fs p dm (Except.error e) dp d hk h0 hdpe hfs hsm] at hatt
              simp at hatt
            · cases hmd : analysis_metadata (read_semgrep (args.get? 1) fs p).fst
                (truncate_diff d).snd with
              | error e2 =>
                rw [llm_main_md_error env args fs p dm (Except.error e) dp d e2
                  hk h0 hdpe hfs hsm hmd] at hatt
                have hsg := onlyPrinted_no_llm _ (read_semgrep_onlyPrinted (args.get? 1) fs p)
                simp only [List.get?_eq_getElem?] at hsg
                cases htd : (truncate_diff d).snd <;> simp [htd, hsg] at hatt
              | ok md =>
                have hrun := llm_main_run env args fs p dm (Except.error e) dp d md
                  hk h0 hdpe hfs hsm hmd
                rw [hrun]
                refine ⟨rfl, by simp, ?_⟩
                have hsg := onlyPrinted_no_post _ (read_semgrep_onlyPrinted (args.get? 1) fs p)
                simp only [List.get?_eq_getElem?] at hsg
                cases htd : (truncate_diff d).snd <;> simp [htd, hsg]
  · intro env args fs p dF e fnd nf npr hsm hres hlen hk hprn hnpr htok hrepo
    have hrun := summary_main_llm_error_posted env args fs p dF e fnd nf npr
      hsm hres hlen hk hprn hnpr htok hrepo
    rw [hrun]
    exact ⟨rfl, by simp⟩

/-- Concrete check of the amended C5: an `llm.py` run whose LLM call
raises exits 1; a `pr_summary_agent.py` run whose LLM call raises posts
anyway and exits 0. -/
theorem C5_llm_error_witness :
    (llm_main { gemini_api_key := some "key", pr_number := none, semgrep_config := none }
      ["diff.txt"] (fsWith "diff.txt" diffSmallW) parseFail dumpsStub
      (Except.error "boom")).exitCode = 1 ∧
    (summary_main { gemini_api_key := some "key", github_token := some "tok", repo_full_name := some "own/repo", pr_number_raw := some "9", semgrep_config := none }
      ["d.diff"] (fsWith "d.diff" diffSmallW) parseFail dumpsFStub
      (Except.error "boom") (Except.ok ())).exitCode = 0 := by
  constructor
  · exact (C5_llm_error_amended.1
      { gemini_api_key := some "key", pr_number := none, semgrep_config := none }
      ["diff.txt"] (fsWith "diff.txt" diffSmallW) parseFail dumpsStub "boom" rfl).1
  · exact (C5_llm_error_amended.2
      { gemini_api_key := some "key", github_token := some "tok", repo_full_name := some "own/repo", pr_number_raw := some "9", semgrep_config := none }
      ["d.diff"] (fsWith "d.diff" diffSmallW) parseFail dumpsFStub
      "boom" (JsonVal.arr []) 0 9 (by decide) rfl rfl rfl rfl rfl rfl rfl).1

/-- Claim C5 counterexample: a `pr_summary_agent.py` run whose LLM call
raises a provider error exits 0 and posts the fixed failure text as the
review comment — the claim's "exit non-zero, nothing posted" is false. -/
theorem C5_llm_error_counterexample :
    (summary_main { gemini_api_key := some "key", github_token := some "tok", repo_full_name := some "own/repo", pr_number_raw := some "5", semgrep_config := none }
      ["d.diff"] (fsWith "d.diff" diffSmallW) parseFail dumpsFStub
      (Except.error "rate limited") (Except.ok ())).exitCode = 0 ∧
    postAttempted (summary_main { gemini_api_key := some "key", github_token := some "tok", repo_full_name := some "own/repo", pr_number_raw := some "5", semgrep_config := none }
      ["d.diff"] (fsWith "d.diff" diffSmallW) parseFail dumpsFStub
      (Except.error "rate limited") (Except.ok ())).events = true ∧
    Event.postedComment ("## Automated Gemini Code Review for PR #5\n\n" ++ GEMINI_FAILURE_TEXT)
      ∈ (summary_main { gemini_api_key := some "key", github_token := some "tok", repo_full_name := some "own/repo", pr_number_raw := some "5", semgrep_config := none }
      ["d.diff"] (fsWith "d.diff" diffSmallW) parseFail dumpsFStub
      (Except.error "rate limited") (Except.ok ())).events := by
  refine ⟨rfl, rfl, ?_⟩
  decide

/-- Claim C6 (amended): `llm.py` checks the whitespace-trimmed length, so
a diff whose trimmed content is shorter than 10 characters ends the run
with exit code 0, no LLM call and a "too small to review" message.
`pr_review_agent_final.py` checks the untrimmed length instead: it exits
0 without an LLM call only when the raw length is below 10, so a
whitespace-only diff of 10 or more characters proceeds to the LLM. -/
theorem C6_too_small_amended :
    (∀ (env : LlmEnv) (args : List String) (fs : String → Option String)
       (p : String → Except String JsonVal) (dm : List (String × JsonVal) → String)
       (r : Except String String) (dp d : String),
      pyTruthy env.gemini_api_key = true →
      args.head? = some dp → dp.isEmpty = false → fs dp = some d →
      pyLen (pyStrip d) < 10 →
      (llm_main env args fs p dm r).exitCode = 0 ∧
      llmAttempted (llm_main env args fs p dm r).events = false ∧
      Event.printed "Diff missing or too small to review. Exiting."
        ∈ (llm_main env args fs p dm r).events) ∧
    (∀ (env : LlmEnv) (args : List String) (fs : String → Option String)
       (p : String → Except String JsonVal) (dm : List (String × JsonVal) → String)
       (r : Except String String) (prs : String) (n : Int),
      env.pr_number = some prs → pyIntOfString prs = some n →
      pyLen (read_diff_loose args fs) < 10 →
      (final_main env args fs p dm r).exitCode = 0 ∧
      llmAttempted (final_main env args fs p dm r).events = false ∧
      Event.printed "Diff missing or too small. Exiting."
        ∈ (final_main env args fs p dm r).events) := by
  constructor
  · intro env args fs p dm r dp d hk h0 hdp hfs hsm
    rw [llm_main_too_small env args fs p dm r dp d hk h0 hdp hfs hsm]
    exact ⟨rfl, by simp, by simp⟩
  · intro env args fs p dm r prs n hpr hpi hsm
    rw [final_main_too_small env args fs p dm r prs n hpr hpi hsm]
    exact ⟨rfl, by simp, by simp⟩

/-- Concrete check of the amended C6: a 3-space diff (scenario B) ends
both scripts with exit 0 and no LLM call. -/
theorem C6_too_small_witness :
    (llm_main { gemini_api_key := some "key", pr_number := none, semgrep_config := none }
      ["blank.diff"] (fsWith "blank.diff" "   ") parseFail dumpsStub (Except.ok "fine")).exitCode = 0 ∧
    llmAttempted (llm_main { gemini_api_key := some "key", pr_number := none, semgrep_config := none }
      ["blank.diff"] (fsWith "blank.diff" "   ") parseFail dumpsStub (Except.ok "fine")).events = false ∧
    (final_main { gemini_api_key := some "key", pr_number := some "3", semgrep_config := none }
      ["tiny.diff"] (fsWith "tiny.diff" "abc") parseFail dumpsStub (Except.ok "fine")).exitCode = 0 := by
  have h1 := C6_too_small_amended.1
    { gemini_api_key := some "key", pr_number := none, semgrep_config := none }
    ["blank.diff"] (fsWith "blank.diff" "   ") parseFail dumpsStub (Except.ok "fine")
    "blank.diff" "   " rfl rfl rfl rfl (by decide)
  have h2 := C6_too_small_amended.2
    { gemini_api_key := some "key", pr_number := some "3", semgrep_config := none }
    ["tiny.diff"] (fsWith "tiny.diff" "abc") parseFail dumpsStub (Except.ok "fine")
    "3" 3 rfl rfl (by decide)
  exact ⟨h1.1, h1.2.1, h2.1⟩

/-- Claim C6 counterexample: a 12-space diff file has trimmed length 0,
yet `pr_review_agent_final.py` proceeds to call the LLM (its length
check does not trim), so the claimed "exit 0 with no LLM call" for
trimmed-length-below-10 diffs is false. -/
theorem C6_too_small_counterexample :
    pyLen (pyStrip diffBlank12) < 10 ∧
    llmAttempted (final_main { gemini_api_key := some "key", pr_number := some "3", semgrep_config := none }
      ["blank.diff"] (fsWith "blank.diff" diffBlank12) parseFail dumpsStub
      (Except.ok "review")).events = true ∧
    (final_main { gemini_api_key := some "key", pr_number := some "3", semgrep_config := none }
      ["blank.diff"] (fsWith "blank.diff" diffBlank12) parseFail dumpsStub
      (Except.ok "review")).exitCode = 0 := by
  refine ⟨by decide, rfl, rfl⟩

/-- Claim C7 (amended): with the LLM credential absent or empty, no
request to the completion endpoint is ever issued in any of the three
scripts.  `llm.py` always exits 1 immediately.  In
`pr_review_agent_final.py` and `pr_summary_agent.py` the credential is
only checked at client-construction/call time, so such a run exits
non-zero unless it first reaches the "nothing to review" outcome, which
exits 0. -/
theorem C7_missing_credential_amended :
    (∀ (env : LlmEnv) (args : List String) (fs : String → Option String)
       (p : String → Except String JsonVal) (dm : List (String × JsonVal) → String)
       (r : Except String String),
      pyTruthy env.gemini_api_key = false →
      (llm_main env args fs p dm r).exitCode = 1 ∧
      llmAttempted (llm_main env args fs p dm r).events = false) ∧
    (∀ (env : LlmEnv) (args : List String) (fs : String → Option String)
       (p : String → Except String JsonVal) (dm : List (String × JsonVal) → String)
       (r : Except String String),
      pyTruthy env.gemini_api_key = false →
      llmAttempted (final_main env args fs p dm r).events = false ∧
      ((final_main env args fs p dm r).exitCode ≠ 0 ∨
        Event.printed "Diff missing or too small. Exiting."
          ∈ (final_main env args fs p dm r).events)) ∧
    (∀ (env : SummaryEnv) (args : List String) (fs : String → Option String)
       (p : String → Except String JsonVal) (dF : JsonVal → String)
       (r : Except String String) (post : Except String Unit),
      pyTruthy env.gemini_api_key = false →
      llmAttempted (summary_main env args fs p dF r post).events = false ∧
      ((summary_main env args fs p dF r post).exitCode ≠ 0 ∨
        Event.printed "Diff missing or too small. Exiting."
          ∈ (summary_main env args fs p dF r post).events)) := by
  refine ⟨?_, ?_, ?_⟩
  · intro env args fs p dm r hk
    rw [llm_main_no_key env args fs p dm r hk]
    exact ⟨rfl, by simp⟩
  · intro env args fs p dm r hk
    cases hpr : env.pr_number with
    | none =>
      rw [final_main_no_pr env args fs p dm r hpr]
      exact ⟨by simp, Or.inl (by simp)⟩
    | some prs =>
      cases hpi : pyIntOfString prs with
      | none =>
        rw [final_main_bad_pr env args fs p dm r prs hpr hpi]
        exact ⟨by simp, Or.inl (by simp)⟩
      | some n =>
        by_cases hsm : pyLen (read_diff_loose args fs) < 10
        · rw [final_main_too_small env args fs p dm r prs n hpr hpi hsm]
          exact ⟨by simp, Or.inr (by simp)⟩
        · cases hmd : final_metadata (final_read_semgrep (args.get? 1) fs p) with
          | error e =>
            rw [final_main_md_error env args fs p dm r prs n e hpr hpi hsm hmd]
            exact ⟨by simp, Or.inl (by simp)⟩
          | ok md =>
            rw [final_main_no_client env args fs p dm r prs n md hpr hpi hsm hmd hk]
            exact ⟨by simp, Or.inl (by simp)⟩
  · intro env args fs p dF r post hk
    by_cases hsm : pyLen (read_diff_loose args fs) < 10
    · rw [summary_main_too_small env args fs p dF r post hsm]
      exact ⟨by simp, Or.inr (by simp)⟩
    · cases hres : pyGetD (summary_read_semgrep (args.get? 1) fs p).fst "results"
        (JsonVal.arr []) with
      | error e =>
        rw [summary_main_results_error env args fs p dF r post e hsm hres]
        exact ⟨onlyPrinted_no_llm _ (summary_read_semgrep_onlyPrinted (args.get? 1) fs p),
               Or.inl (by simp)⟩
      | ok fnd =>
        cases hlen : pyLenOf fnd with
        | error e =>
          rw [summary_main_len_error env args fs p dF r post fnd e hsm hres hlen]
          exact ⟨onlyPrinted_no_llm _ (summary_read_semgrep_onlyPrinted (args.get? 1) fs p),
                 Or.inl (by simp)⟩
        | ok nf =>
          rw [summary_main_no_key env args fs p dF r post fnd nf hsm hres hlen hk]
          have hsg := onlyPrinted_no_llm _ (summary_read_semgrep_onlyPrinted (args.get? 1) fs p)
          simp only [List.get?_eq_getElem?] at hsg
          exact ⟨by simp [hsg], Or.inl (by simp)⟩

/-- Concrete check of the amended C7: with the credential unset, `llm.py`
exits 1 and none of the three scripts issues an LLM request. -/
theorem C7_missing_credential_witness :
    (llm_main { gemini_api_key := none, pr_number := none, semgrep_config := none }
      ["diff.txt"] (fsWith "diff.txt" diffSmallW) parseFail dumpsStub (Except.ok "r")).exitCode = 1 ∧
    llmAttempted (final_main { gemini_api_key := none, pr_number := some "2", semgrep_config := none }
      ["diff.txt"] (fsWith "diff.txt" diffSmallW) parseFail dumpsStub (Except.ok "r")).events = false ∧
    llmAttempted (summary_main { gemini_api_key := none, github_token := none, repo_full_name := none, pr_number_raw := none, semgrep_config := none }
      ["diff.txt"] (fsWith "diff.txt" diffSmallW) parseFail dumpsFStub (Except.ok "r")
      (Except.ok ())).events = false := by
  refine ⟨?_, ?_, ?_⟩
  · exact (C7_missing_credential_amended.1
      { gemini_api_key := none, pr_number := none, semgrep_config := none }
      ["diff.txt"] (fsWith "diff.txt" diffSmallW) parseFail dumpsStub (Except.ok "r") rfl).1
  · exact (C7_missing_credential_amended.2.1
      { gemini_api_key := none, pr_number := some "2", semgrep_config := none }
      ["diff.txt"] (fsWith "diff.txt" diffSmallW) parseFail dumpsStub (Except.ok "r") rfl).1
  · exact (C7_missing_credential_amended.2.2
      { gemini_api_key := none, github_token := none, repo_full_name := none, pr_number_raw := none, semgrep_config := none }
      ["diff.txt"] (fsWith "diff.txt" diffSmallW) parseFail dumpsFStub (Except.ok "r")
      (Except.ok ()) rfl).1

/-- Claim C7 counterexample: a `pr_review_agent_final.py` run with the
credential unset and a tiny diff exits with code 0 (the "nothing to
review" branch runs before any credential check), not non-zero as
claimed. -/
theorem C7_missing_credential_counterexample :
    pyTruthy (none : Option String) = false ∧
    (final_main { gemini_api_key := none, pr_number := some "2", semgrep_config := none }
      ["tiny.diff"] (fsWith "tiny.diff" "abc") parseFail dumpsStub (Except.ok "r")).exitCode = 0 ∧
    llmAttempted (final_main { gemini_api_key := none, pr_number := some "2", semgrep_config := none }
      ["tiny.diff"] (fsWith "tiny.diff" "abc") parseFail dumpsStub (Except.ok "r")).events = false :=
  ⟨rfl, rfl, rfl⟩

/-- Claim C8: `PR_NUMBER` is read with a default in `llm.py` and never
used afterwards, so the whole run is independent of it.  But
`pr_review_agent_final.py` line 8 runs `int(os.getenv("PR_NUMBER"))`
with no guard: when the variable is unset this raises a `TypeError` at
startup and the process dies with exit code 1 before doing anything —
contradicting the documented "optional, used only for logging/labeling"
role (the variable is not even used in that script). -/
theorem C8_pr_number_optional :
    (∀ (k v1 v2 sc : Option String) (args : List String) (fs : String → Option String)
       (p : String → Except String JsonVal) (dm : List (String × JsonVal) → String)
       (r : Except String String),
      llm_main { gemini_api_key := k, pr_number := v1, semgrep_config := sc } args fs p dm r =
      llm_main { gemini_api_key := k, pr_number := v2, semgrep_config := sc } args fs p dm r) ∧
    (∀ (env : LlmEnv) (args : List String) (fs : String → Option String)
       (p : String → Except String JsonVal) (dm : List (String × JsonVal) → String)
       (r : Except String String),
      env.pr_number = none →
      (final_main env args fs p dm r).exitCode = 1 ∧
      (final_main env args fs p dm r).events = [] ∧
      llmAttempted (final_main env args fs p dm r).events = false) := by
  constructor
  · intro k v1 v2 sc args fs p dm r
    rfl
  · intro env args fs p dm r hpr
    rw [final_main_no_pr env args fs p dm r hpr]
    exact ⟨rfl, rfl, rfl⟩

/-- Concrete check of C8: the `llm.py` run is identical with and without
a PR number; the `pr_review_agent_final.py` run with `PR_NUMBER` unset
dies with exit code 1 before any work. -/
theorem C8_pr_number_optional_witness :
    llm_main { gemini_api_key := some "key", pr_number := none, semgrep_config := none }
      ["diff.txt"] (fsWith "diff.txt" diffSmallW) parseFail dumpsStub (Except.ok "r") =
    llm_main { gemini_api_key := some "key", pr_number := some "42", semgrep_config := none }
      ["diff.txt"] (fsWith "diff.txt" diffSmallW) parseFail dumpsStub (Except.ok "r") ∧
    (final_main { gemini_api_key := some "key", pr_number := none, semgrep_config := none }
      ["diff.txt"] (fsWith "diff.txt" diffSmallW) parseFail dumpsStub (Except.ok "r")).exitCode = 1 := by
  constructor
  · exact C8_pr_number_optional.1 (some "key") none (some "42") none
      ["diff.txt"] (fsWith "diff.txt" diffSmallW) parseFail dumpsStub (Except.ok "r")
  · exact (C8_pr_number_optional.2
      { gemini_api_key := some "key", pr_number := none, semgrep_config := none }
      ["diff.txt"] (fsWith "diff.txt" diffSmallW) parseFail dumpsStub (Except.ok "r") rfl).1

/-- Claim C9: findings summarization is deterministic and idempotent —
the embedded `analysis_metadata` is a pure function of the report and
the truncation flag (the source lines 73-81 read no clock, randomness or
global state), so two calls on the same inputs return the same record
and the same serialized bytes. -/
theorem C9_summarize_deterministic (j : JsonVal) (b : Bool)
    (dumps : List (String × JsonVal) → String) :
    analysis_metadata j b = analysis_metadata j b ∧
    Except.map dumps (analysis_metadata j b) = Except.map dumps (analysis_metadata j b) :=
  ⟨rfl, rfl⟩

/-- Claim C10: in every `llm.py` run that builds a prompt, the metadata
block embedded in the prompt is the same serializer output, on the same
record, as the content written to the metadata artifact file (so the two
are character-identical), the record's keys are in the order
`diff_truncated, version, total_findings, errors, paths_scanned,
relevant_findings`, and the artifact write occurs in the event trace
before the LLM call. -/
theorem C10_metadata_artifact (env : LlmEnv) (args : List String) (fs : String → Option String)
    (p : String → Except String JsonVal) (dm : List (String × JsonVal) → String)
    (r : Except String String) (b : BuiltPrompt)
    (h : (llm_main env args fs p dm r).built = some b) :
    b.metaJson = dm b.metaFields ∧
    b.metaFields.map Prod.fst =
      ["diff_truncated", "version", "total_findings", "errors",
       "paths_scanned", "relevant_findings"] ∧
    b.prompt = llm_SystemPrompt b.diff b.metaJson ++ "\n\n" ++ llm_UserPrompt ∧
    (∃ pre mid post, (llm_main env args fs p dm r).events =
      pre ++ Event.wroteFile "analysis_output/semgrep_metadata.json" b.metaJson ::
        (mid ++ Event.llmCalled b.prompt :: post)) := by
  cases hk : pyTruthy env.gemini_api_key with
  | false =>
    rw [llm_main_no_key env args fs p dm r hk] at h
    simp at h
  | true =>
    cases h0 : args.head? with
    | none =>
      rw [llm_main_no_path env args fs p dm r hk h0] at h
      simp at h
    | some dp =>
      cases hdpe : dp.isEmpty with
      | true =>
        rw [llm_main_empty_path env args fs p dm r dp hk h0 hdpe] at h
        simp at h
      | false =>
        cases hfs : fs dp with
        | none =>
          rw [llm_main_no_file env args fs p dm r dp hk h0 hdpe hfs] at h
          simp at h
        | some d =>
          by_cases hsm : pyLen (pyStrip d) < 10
          · rw [llm_main_too_small env args fs p dm r dp d hk h0 hdpe hfs hsm] at h
            simp at h
          · cases hmd : analysis_metadata (read_semgrep (args.get? 1) fs p).fst
              (truncate_diff d).snd with
            | error e =>
              rw [llm_main_md_error env args fs p dm r dp d e hk h0 hdpe hfs hsm hmd] at h
              simp at h
            | ok md =>
              have hrun := llm_main_run env args fs p dm r dp d md hk h0 hdpe hfs hsm hmd
              rw [hrun] at h
              injection h with h2
              subst h2
              refine ⟨rfl, metadata_keys _ _ _ hmd, rfl, ?_⟩
              rw [hrun]
              cases r with
              | ok t =>
                exact ⟨(if (truncate_diff d).snd then
                    [Event.printed "Warning: Diff content truncated to 15000 characters."] else [])
                  ++ (read_semgrep (args.get? 1) fs p).snd,
                  [Event.printed "Saved Semgrep metadata → analysis_output/semgrep_metadata.json"],
                  [Event.printed (pyStrip t)], by simp⟩
              | error e2 =>
                exact ⟨(if (truncate_diff d).snd then
                    [Event.printed "Warning: Diff content truncated to 15000 characters."] else [])
                  ++ (read_semgrep (args.get? 1) fs p).snd,
                  [Event.printed "Saved Semgrep metadata → analysis_output/semgrep_metadata.json"],
                  [Event.printed ("Error: Gemini API call failed: " ++ e2)], by simp⟩

/-- Concrete check of C10 on a run with a 24-character diff and no
Semgrep file. -/
theorem C10_metadata_artifact_witness :
    builtW.metaJson = dumpsStub builtW.metaFields ∧
    builtW.metaFields.map Prod.fst =
      ["diff_truncated", "version", "total_findings", "errors",
       "paths_scanned", "relevant_findings"] ∧
    builtW.prompt = llm_SystemPrompt builtW.diff builtW.metaJson ++ "\n\n" ++ llm_UserPrompt := by
  have h := C10_metadata_artifact
    { gemini_api_key := some "key", pr_number := none, semgrep_config := none }
    ["diff.txt"] (fsWith "diff.txt" diffSmallW) parseFail dumpsStub (Except.ok "fine")
    builtW rfl
  exact ⟨h.1, h.2.1, h.2.2.1⟩
